import Mathlib

/-!
Shallow embedding of the workflow scheduling and durable execution engine
(`scheduler.py`, `etl_activities.py`, `temporal_workflow.py`,
`temporal_utils.py`) together with theorems settling the frozen claims.

Conventions of the embedding:
* database rows become Lean structures; the ORM session is modelled as
  explicit state (lists of rows) threaded through the functions;
* timestamps are `Nat` (an abstract clock value passed in as `now`);
* external effects that can raise (RPCs, HTTP, object storage, DuckDB,
  JSON parsing) are parameters of type `Except String _` or `Bool`
  supplied by an environment record, so the same Lean function covers the
  success and the failure run of the Python code;
* a Python `try/except/finally` is modelled by matching on the
  `Except` outcome and performing the `finally` writes on both branches.
-/

namespace DuckdbStudio

/-- Row of the `WorkflowExecution` table, as used by the scheduler
(`models.py`): status is one of "running" / "success" / "failed". -/
structure Execution where
  id : Nat
  workflow_id : Nat
  status : String
  error_message : Option String
  started_at : Option Nat
  completed_at : Option Nat
  temporal_workflow_id : Option String
  deriving Repr, DecidableEq

/-- Row of the `QueryTemplate` table: only the fields the engine reads. -/
structure QueryTemplate where
  id : Nat
  query : Option String
  deriving Repr, DecidableEq

/-- Row of the `Workflow` table: only the fields the engine reads. -/
structure Workflow where
  id : Nat
  owner_id : Nat
  owner_username : Option String
  status : String
  schedule : String
  query : Option String
  template_id : Option Nat
  source_type : Option String
  source_config : Option String
  destination_type : Option String
  destination_config : Option String
  last_run : Option Nat
  deriving Repr, DecidableEq

/-- Row of the `WorkflowExecutionStep` table (`models.py`), written by the
three step activities in `etl_activities.py`. -/
structure StepRecord where
  execution_id : Nat
  step_number : Nat
  step_name : String
  status : String
  error_message : Option String
  output_data : Option String
  started_at : Option Nat
  completed_at : Option Nat
  deriving Repr, DecidableEq

/-! ## `WorkflowScheduler.cancel_running_executions` (scheduler.py 99-139) -/

/-- The per-execution cancel RPC of `cancel_running_executions`:
`if client_ns and ex.temporal_workflow_id: await handle.cancel()`.
`connectOk` is whether `Client.connect` succeeded (its exception is caught
at the call site, leaving `client_ns = None`); `rpcFails ex.id` is whether
`handle.cancel()` raises for this execution. -/
def tryCancelRpc (connectOk : Bool) (tid : Option String) (rpcFails : Bool) :
    Except String Unit :=
  if connectOk ∧ tid.isSome then
    if rpcFails then Except.error "rpc error" else Except.ok ()
  else Except.ok ()

/-- Body of the `for ex in running:` loop: the `try` around the RPC whose
exception is caught and logged, and the `finally` block that
unconditionally sets status/error/completed_at on the row. -/
def cancelLoopBody (connectOk : Bool) (rpcFails : Nat → Bool) (now : Nat)
    (ex : Execution) : Execution :=
  match tryCancelRpc connectOk ex.temporal_workflow_id (rpcFails ex.id) with
  | Except.ok _ =>
      { ex with status := "failed", error_message := some "cancelled by user",
                completed_at := some now }
  | Except.error _ =>
      -- the `except` clause only logs; the `finally` writes still happen
      { ex with status := "failed", error_message := some "cancelled by user",
                completed_at := some now }

/-- Embeds `WorkflowScheduler.cancel_running_executions(workflow_id, user_id)`:
queries all executions of the workflow with status "running", returns early
if there are none, otherwise best-effort cancels each durable run and
unconditionally marks each row failed/cancelled, then commits.  The result
is the table after commit. -/
def cancel_running_executions (connectOk : Bool) (rpcFails : Nat → Bool)
    (now : Nat) (workflow_id : Nat) (db : List Execution) : List Execution :=
  let running := db.filter fun ex =>
    ex.workflow_id == workflow_id && ex.status == "running"
  if running.isEmpty then db
  else
    db.map fun ex =>
      if ex.workflow_id == workflow_id && ex.status == "running" then
        cancelLoopBody connectOk rpcFails now ex
      else ex

/-! ## Query resolution (scheduler.py 218-226 and 277-288) -/

/-- The query-resolution block duplicated in `_execute_via_temporal` and
`_execute_synchronously`:
`query_to_run = workflow.query or ""`, then if `workflow.template_id` is
set, look the template up (a lookup exception is swallowed by
`except: pass`, modelled by `lookupFails`), and if the template exists and
`tpl.query` is truthy (non-None, non-empty) it replaces `query_to_run`. -/
def resolveQueryToRun (wfQuery : Option String) (templateId : Option Nat)
    (templates : List QueryTemplate) (lookupFails : Bool) : String :=
  let q := match wfQuery with
    | some s => s
    | none => ""
  match templateId with
  | none => q
  | some tid =>
      if lookupFails then q
      else
        match templates.find? fun t => t.id == tid with
        | none => q
        | some tpl =>
            match tpl.query with
            | none => q
            | some tq => if tq = "" then q else tq

/-- Python's `x or default` on an optional string: `None` and `""` both
fall back to the default (string truthiness). -/
def pyOr (x : Option String) (dflt : String) : String :=
  match x with
  | none => dflt
  | some s => if s = "" then dflt else s

/-! ## Execution routing (scheduler.py 33-44, 199-203, 264-266) -/

/-- Which of the two executors actually ran an execution. -/
inductive ExecPath
  | durable
  | fallback
  deriving Repr, DecidableEq

/-- Embeds `WorkflowScheduler.initialize`: one `Client.connect` attempt; on
success `temporal_client` is set, on exception it is left `None` and the
scheduler runs in degraded mode.  The client is opaque, so `Unit`. -/
def initScheduler (connectOk : Bool) : Option Unit :=
  if connectOk then some () else none

/-- Routing of one execution: `_execute_workflow` checks
`self.temporal_client` (the latch set by `initialize`) and calls
`_execute_via_temporal` when set, else `_execute_synchronously`; and the
`except` clause of `_execute_via_temporal` (scheduler.py 264-266) catches
any failure of the per-execution connect/start (`temporalStart`) and calls
`_execute_synchronously` as well. -/
def executionPath (temporal_client : Option Unit)
    (temporalStart : Except String Unit) : ExecPath :=
  match temporal_client with
  | none => ExecPath.fallback
  | some _ =>
      match temporalStart with
      | Except.ok _ => ExecPath.durable
      | Except.error _ => ExecPath.fallback

/-! ## `WorkflowScheduler.schedule_workflow` / `cancel_schedule`
(scheduler.py 46-97) -/

/-- The scheduler's schedule registry `self.running_schedules`
(a dict workflow_id → asyncio task) together with bookkeeping that lets
theorems talk about task identity: `next_task` is a fresh-task counter and
`cancelled_tasks` records the tasks that have been cancelled-and-awaited. -/
structure SchedulerRegistry where
  running_schedules : List (Nat × Nat)
  next_task : Nat
  cancelled_tasks : List Nat
  deriving Repr, DecidableEq

/-- Embeds `WorkflowScheduler.cancel_schedule(workflow_id)`: if the workflow has
an entry, cancel its task, await its exit, and remove the entry. -/
def cancel_schedule (st : SchedulerRegistry) (workflow_id : Nat) :
    SchedulerRegistry :=
  match st.running_schedules.find? fun p => p.1 == workflow_id with
  | none => st
  | some entry =>
      { st with
        running_schedules :=
          st.running_schedules.filter fun p => ¬ p.1 == workflow_id,
        cancelled_tasks := entry.2 :: st.cancelled_tasks }

/-- Embeds `WorkflowScheduler.schedule_workflow(workflow_id, cron, user_id)`.
Steps, in source order: (1) if an entry exists, `cancel_schedule` it;
(2) resolve the per-user namespace (pure, lookup failures handled);
(3) if `self.temporal_client` is `None`, log an error and return —
no task is started; (4) `ensure_namespace` (returns a Bool; `False` only
logs a warning); (5) create the `_run_schedule` task and register it.
Returns the new registry and the log lines emitted.  This definition is
stage (1), the cancel-existing ("replace") stage. -/
def schedule_workflow_pre (st : SchedulerRegistry) (workflow_id : Nat) :
    SchedulerRegistry :=
  if (st.running_schedules.find? fun p => p.1 == workflow_id).isSome then
    cancel_schedule st workflow_id
  else st

/-- The remainder of `schedule_workflow` after the cancel-existing stage:
resolve namespace (pure), bail out with only an error log when
`self.temporal_client` is `None`, ensure the namespace (`False` is
non-fatal, one warning log), then create and register the
`_run_schedule` task. -/
def schedule_workflow (st : SchedulerRegistry) (temporal_client : Option Unit)
    (ensureOk : Bool) (workflow_id : Nat) : SchedulerRegistry × List String :=
  let st1 := schedule_workflow_pre st workflow_id
  match temporal_client with
  | none => (st1, ["error: Temporal client not available"])
  | some _ =>
      let logs := if ensureOk then [] else ["warning: could not ensure namespace"]
      ({ st1 with
         running_schedules := (workflow_id, st1.next_task) :: st1.running_schedules,
         next_task := st1.next_task + 1 },
       logs ++ ["info: scheduled"])

/-! ## `WorkflowScheduler._run_schedule` timer loop as a labelled
transition system (scheduler.py 141-170) -/

/-- Where the `while True` loop of `_run_schedule` currently is.
`computing` is the non-suspending head of the loop (`cron_iter.get_next`),
`sleeping` is `await asyncio.sleep(wait_seconds)`, `firing` is
`await self._execute_workflow(...)`, `backingOff` is the
`await asyncio.sleep(60)` of the generic `except` clause, and `done` is
after the `break` of the `except asyncio.CancelledError` clause (or after
task exit in general). -/
inductive TaskPhase
  | computing
  | sleeping
  | firing
  | backingOff
  | done
  deriving Repr, DecidableEq

/-- State of one `_run_schedule` task: its loop position plus whether
`task.cancel()` has been requested on it. -/
structure TaskState where
  phase : TaskPhase
  cancelRequested : Bool
  deriving Repr, DecidableEq

/-- Events of the timer-loop transition system.  `toFire` and `wake` are
the two ways control reaches `await self._execute_workflow` (zero wait and
elapsed sleep): they are the fire events that create an execution.
`cancelSignal` is `task.cancel()` (sets the flag, takes effect only at a
suspension point); `cancelDeliver` is the `CancelledError` being raised at
a suspension point and caught by the loop's
`except asyncio.CancelledError: break`. -/
inductive SchedEvent
  | toSleep
  | toFire
  | wake
  | fireOk
  | fireErr
  | backoffDone
  | cancelSignal
  | cancelDeliver
  deriving Repr, DecidableEq

/-- One step of the timer-loop transition system; `none` means the event
cannot occur in that state.  Cancellation can only be delivered at a
suspension point (an `await`), and a finished task has no transitions. -/
def stepTask (s : TaskState) (e : SchedEvent) : Option TaskState :=
  match s.phase, e with
  | TaskPhase.computing, SchedEvent.toSleep => some { s with phase := TaskPhase.sleeping }
  | TaskPhase.computing, SchedEvent.toFire => some { s with phase := TaskPhase.firing }
  | TaskPhase.sleeping, SchedEvent.wake => some { s with phase := TaskPhase.firing }
  | TaskPhase.firing, SchedEvent.fireOk => some { s with phase := TaskPhase.computing }
  | TaskPhase.firing, SchedEvent.fireErr => some { s with phase := TaskPhase.backingOff }
  | TaskPhase.backingOff, SchedEvent.backoffDone => some { s with phase := TaskPhase.computing }
  | TaskPhase.done, _ => none
  | _, SchedEvent.cancelSignal => some { s with cancelRequested := true }
  | TaskPhase.sleeping, SchedEvent.cancelDeliver =>
      if s.cancelRequested then some ⟨TaskPhase.done, true⟩ else none
  | TaskPhase.firing, SchedEvent.cancelDeliver =>
      if s.cancelRequested then some ⟨TaskPhase.done, true⟩ else none
  | TaskPhase.backingOff, SchedEvent.cancelDeliver =>
      if s.cancelRequested then some ⟨TaskPhase.done, true⟩ else none
  | _, _ => none

/-- Run the timer-loop transition system over a list of events. -/
def runTask (s : TaskState) : List SchedEvent → Option TaskState
  | [] => some s
  | e :: es =>
      match stepTask s e with
      | none => none
      | some s' => runTask s' es

/-- The events at which `_run_schedule` invokes `_execute_workflow`
(and hence at which an execution row can be created). -/
def isFireEvent (e : SchedEvent) : Bool :=
  e == SchedEvent.toFire || e == SchedEvent.wake

/-! ## `WorkflowScheduler._execute_via_temporal` config (scheduler.py
215-246) -/

/-- The `config` dict handed to the Temporal workflow by
`_execute_via_temporal`: every field defaulted with Python `or`, and
`query` resolved through the template-override block. -/
structure ETLConfigDict where
  source_type : String
  source_config : String
  query : String
  destination_type : String
  destination_config : String
  deriving Repr, DecidableEq

/-- The config built at scheduler.py 228-234: `workflow.query or ""` then
template override, `workflow.source_type or "none"`,
`workflow.destination_type or "storage"`, configs defaulted to `"{}"`
(written here with escaped braces). -/
def temporalConfigFor (wf : Workflow) (templates : List QueryTemplate)
    (lookupFails : Bool) : ETLConfigDict :=
  { source_type := pyOr wf.source_type "none",
    source_config := pyOr wf.source_config "\x7b\x7d",
    query := resolveQueryToRun wf.query wf.template_id templates lookupFails,
    destination_type := pyOr wf.destination_type "storage",
    destination_config := pyOr wf.destination_config "\x7b\x7d" }

/-! ## Database write events

The stateful functions below return, besides their result, the ordered
list of writes they issued against the relational store, so that frame
properties ("this path never creates step rows") are statements about the
embedded code rather than assumptions. -/

/-- One write against the relational store, or one external side effect
(`effect` carries a description such as the exact SQL string handed to
DuckDB). -/
inductive ActEvent
  | dbStepInsert (r : StepRecord)
  | dbStepUpdate (r : StepRecord)
  | dbExecUpdate (e : Execution)
  | dbWorkflowLastRun (workflow_id : Nat) (t : Nat)
  | effect (desc : String)
  deriving Repr, DecidableEq

/-- Holds (`true`) iff the event touches the `WorkflowExecutionStep` table. -/
def touchesStepTable (w : ActEvent) : Bool :=
  match w with
  | ActEvent.dbStepInsert _ => true
  | ActEvent.dbStepUpdate _ => true
  | _ => false

/-! ## `WorkflowScheduler._execute_synchronously` (scheduler.py 268-338) -/

/-- Outcomes of the external operations `_execute_synchronously` performs;
each `Except` value is the behaviour of the corresponding call in one
concrete run (ok, or raised with the given message). -/
structure SyncEnv where
  duckdbConnect : Except String Unit
  duckdbCopy : Except String Unit
  minioUpload : Except String Unit
  parseDestConfig : Except String (Option String)
  webhookPost : Except String Unit
  deriving Repr

/-- The body of `_execute_synchronously`'s `try` block: connect to the
per-user DuckDB file, resolve the query (template override block identical
to `_execute_via_temporal`'s), raise if it is empty, run the `COPY` of the
query to a temp CSV, then handle the destination: `storage` uploads to
MinIO inside its own `try` whose exception is only logged, `webhook`
parses `destination_config` (a parse error propagates) and POSTs when a
url is present (a POST error propagates).  Returns the effect trace and
either `ok` or the raised message. -/
def syncBody (env : SyncEnv) (wf : Workflow) (templates : List QueryTemplate)
    (lookupFails : Bool) : List String × Except String Unit :=
  match env.duckdbConnect with
  | Except.error e => ([], Except.error e)
  | Except.ok _ =>
    let q := resolveQueryToRun wf.query wf.template_id templates lookupFails
    if q = "" then ([], Except.error "No query or template defined")
    else
      let copyEv := "duckdb: COPY (" ++ q ++ ") TO tmp csv"
      match env.duckdbCopy with
      | Except.error e => ([copyEv], Except.error e)
      | Except.ok _ =>
        if wf.destination_type = some "storage" then
          -- inner try/except: an upload failure is logged, not raised
          match env.minioUpload with
          | Except.ok _ => ([copyEv, "minio: fput transformed csv"], Except.ok ())
          | Except.error _ => ([copyEv], Except.ok ())
        else if wf.destination_type = some "webhook" then
          if pyOr wf.destination_config "" = "" then ([copyEv], Except.ok ())
          else
            match env.parseDestConfig with
            | Except.error e => ([copyEv], Except.error e)
            | Except.ok none => ([copyEv], Except.ok ())
            | Except.ok (some url) =>
                match env.webhookPost with
                | Except.error e => ([copyEv], Except.error e)
                | Except.ok _ =>
                    ([copyEv, "http: POST " ++ url], Except.ok ())
        else ([copyEv], Except.ok ())

/-- Embeds `WorkflowScheduler._execute_synchronously(workflow, execution, db)`:
runs `syncBody`; on success marks the execution `success` with
`completed_at` and sets `workflow.last_run`, on any raised error marks it
`failed` with the error message and `completed_at`.  Returns the full
write trace and the updated execution row. -/
def execute_synchronously (env : SyncEnv) (wf : Workflow)
    (templates : List QueryTemplate) (lookupFails : Bool) (ex : Execution)
    (now : Nat) : List ActEvent × Execution :=
  match syncBody env wf templates lookupFails with
  | (evs, Except.ok _) =>
      let ex' := { ex with status := "success", completed_at := some now }
      (evs.map ActEvent.effect ++
        [ActEvent.dbExecUpdate ex', ActEvent.dbWorkflowLastRun wf.id now], ex')
  | (evs, Except.error e) =>
      let ex' := { ex with status := "failed", error_message := some e,
                           completed_at := some now }
      (evs.map ActEvent.effect ++ [ActEvent.dbExecUpdate ex'], ex')

/-! ## Step activities (`etl_activities.py`)

Database inserts/updates are assumed to succeed (`SessionLocal` commits
never raise in this model); every other effect is an environment
parameter.  Each activity returns its write/effect trace together with its
Python outcome: `ok result` for a normal return, `error msg` for a raised
exception. -/

/-- A parsed JSON value, abstracted to what the engine inspects: whether
it is an array (and its elements), or some other value together with its
Python truthiness. -/
inductive JsonValue
  | arr (len : Nat)
  | nonArr (truthy : Bool)
  deriving Repr, DecidableEq

/-- Python truthiness of a JSON value: an array is truthy iff non-empty. -/
def JsonValue.isTruthy : JsonValue → Bool
  | JsonValue.arr l => !(l == 0)
  | JsonValue.nonArr t => t

/-- One entry of `source_config["files"]` as read by the activities:
`path`, optional explicit `table_name`, optional `format`. -/
structure FileConfig where
  path : Option String
  table_name : Option String
  format : Option String
  deriving Repr, DecidableEq

/-- Python's `str.split(sep)` for a one-character separator, on the
character list of the string: `"a/b".split("/") = ["a", "b"]`,
`"x".split(".") = ["x"]`; always returns a non-empty list. -/
def splitOnChar (c : Char) : List Char → List (List Char)
  | [] => [[]]
  | x :: xs =>
      match splitOnChar c xs with
      | [] => [[]]
      | y :: ys => if x = c then [] :: y :: ys else (x :: y) :: ys

/-- Embeds `file_config.get("table_name", file_path.split("/")[-1].split(".")[0])`
(etl_activities.py 109).  Python evaluates the default argument first, so a
missing `path` raises even when an explicit `table_name` is present. -/
def derivedTableNameE (fc : FileConfig) : Except String String :=
  match fc.path with
  | none => Except.error "AttributeError: NoneType object has no attribute split"
  | some p =>
      let dflt := String.mk
        ((splitOnChar '.' ((splitOnChar '/' p.data).getLastD [])).headD [])
      Except.ok (match fc.table_name with
        | some t => t
        | none => dflt)

/-- The DuckDB reader function chosen from the file format
(etl_activities.py 119-124); an unknown format executes nothing. -/
def readFnFor (fmt : String) : Option String :=
  if fmt = "csv" then some "read_csv_auto"
  else if fmt = "parquet" then some "read_parquet"
  else if fmt = "json" then some "read_json_auto"
  else none

/-- The generated DDL, exactly as interpolated at etl_activities.py
120/122/124: the table name is spliced into the statement verbatim. -/
def createTableDdl (readFn tableName tmpPath : String) : String :=
  "CREATE OR REPLACE TABLE " ++ tableName ++ " AS SELECT * FROM " ++
    readFn ++ "('" ++ tmpPath ++ "')"

/-- The SQL statement the file-loading loop executes for one file config
(`none` when the format is unrecognized and nothing is executed); an error
is the exception raised while deriving the table name. -/
def fileLoadSql (fc : FileConfig) (tmpPath : String) :
    Except String (Option String) :=
  match derivedTableNameE fc with
  | Except.error e => Except.error e
  | Except.ok tn =>
      match readFnFor (match fc.format with | some f => f | none => "csv") with
      | none => Except.ok none
      | some fn => Except.ok (some (createTableDdl fn tn tmpPath))

/-- Modelled from the spec: the sanitization predicate the claim asserts —
identifiers made of alphanumerics and underscores only, not starting with
a digit. -/
def isSanitizedIdentifier (s : String) : Bool :=
  s.data.all (fun c => c.isAlphanum || c = '_') && !(s.data.headD '_').isDigit

/-- The parsed `source_config` dict, restricted to the keys the fetch
activity reads: `files` (default `[]`) and `url`. -/
structure SourceConfigDict where
  files : List FileConfig
  url : Option String
  deriving Repr, DecidableEq

/-- Embeds `json.dumps({"row_count": n})` (braces escaped in the Lean string). -/
def dumpsRowCount (n : Nat) : String :=
  "\x7b\"row_count\": " ++ toString n ++ "\x7d"

/-- Result dict of `fetch_source_data`: `data`, `row_count`, `files`,
optional `message` (missing keys read as their defaults downstream). -/
structure FetchResult where
  data : JsonValue
  row_count : Nat
  files : List FileConfig
  message : Option String
  deriving Repr, DecidableEq

/-- Payload of `fetch_source_data` (all reads via `payload.get`). -/
structure FetchPayload where
  execution_id : Nat
  source_type : Option String
  source_config : Option String
  deriving Repr, DecidableEq

/-- Environment of one `fetch_source_data` run: outcome of
`json.loads(source_config)` when `source_config` is truthy, outcome of the
HTTP GET + `.json()` for the `api` source, and the two clock readings used
for `started_at`/`completed_at`. -/
structure FetchEnv where
  parseSourceConfig : Except String SourceConfigDict
  httpGetJson : Except String JsonValue
  t0 : Nat
  t1 : Nat
  deriving Repr

/-- Embeds `json.loads(source_config or "{}")`: an absent or empty config parses
as the empty dict without consulting the parser. -/
def parseConfigOrEmpty (cfg : Option String)
    (parse : Except String SourceConfigDict) : Except String SourceConfigDict :=
  if pyOr cfg "\x7b\x7d" = "\x7b\x7d" then Except.ok ⟨[], none⟩ else parse

/-- Body of `fetch_source_data`'s `try` block after the step row is
inserted (etl_activities.py 31-52): dispatch on `source_type`. -/
def fetchBody (env : FetchEnv) (p : FetchPayload) :
    List String × Except String FetchResult :=
  let init : FetchResult := ⟨JsonValue.arr 0, 0, [], none⟩
  match p.source_type with
  | some "none" =>
      ([], Except.ok { init with message := some "No source configured" })
  | some "file" =>
      (match parseConfigOrEmpty p.source_config env.parseSourceConfig with
       | Except.error e => ([], Except.error e)
       | Except.ok cfg =>
          ([], Except.ok
            { init with
                files := cfg.files,
                message := some ("Configured " ++ toString cfg.files.length ++
                  " file(s) for loading"),
                row_count := cfg.files.length }))
  | some "api" =>
      (match parseConfigOrEmpty p.source_config env.parseSourceConfig with
       | Except.error e => ([], Except.error e)
       | Except.ok cfg =>
          match cfg.url with
          | none => ([], Except.error "InvalidURL: None")
          | some url =>
              match env.httpGetJson with
              | Except.error e => (["http: GET " ++ url], Except.error e)
              | Except.ok d =>
                  (["http: GET " ++ url],
                   Except.ok ⟨d,
                     (match d with
                      | JsonValue.arr l => l
                      | JsonValue.nonArr _ => 1), [], none⟩))
  | some "ftp" =>
      ([], Except.ok { init with message := some "FTP not yet implemented" })
  | _ => ([], Except.ok init)

/-- The `try/except/finally` wrapper shared (as three verbatim copies in
the source) by the step activities: insert the step row as `running`
before the body runs, run the body, and flip the row to `success` with
serialized `output_data` on a normal return or to `failed` with the error
message on a raise — the exception is re-raised after the update. -/
def runStepActivity {α : Type} (num : Nat) (name : String) (eid t0 t1 : Nat)
    (okOutput : α → String) (body : List String × Except String α) :
    List ActEvent × Except String α :=
  let step0 : StepRecord :=
    { execution_id := eid, step_number := num, step_name := name,
      status := "running", error_message := none, output_data := none,
      started_at := some t0, completed_at := none }
  match body with
  | (evs, Except.ok r) =>
      (ActEvent.dbStepInsert step0 :: evs.map ActEvent.effect ++
        [ActEvent.dbStepUpdate
          { step0 with
              status := "success",
              completed_at := some t1,
              output_data := some (okOutput r) }],
       Except.ok r)
  | (evs, Except.error e) =>
      (ActEvent.dbStepInsert step0 :: evs.map ActEvent.effect ++
        [ActEvent.dbStepUpdate
          { step0 with
              status := "failed",
              completed_at := some t1,
              error_message := some e }],
       Except.error e)

/-- Embeds `fetch_source_data(payload)` (etl_activities.py 12-67): step row 1,
`fetch_source`, `output_data = json.dumps({"row_count": ...})`. -/
def fetch_source_data (env : FetchEnv) (p : FetchPayload) :
    List ActEvent × Except String FetchResult :=
  runStepActivity 1 "fetch_source" p.execution_id env.t0 env.t1
    (fun r => dumpsRowCount r.row_count) (fetchBody env p)

/-- One result row of the transform query: column name / value pairs
(`dict(zip(columns, row))`). -/
def ResultRow : Type := List (String × String)

instance : DecidableEq ResultRow := by
  unfold ResultRow
  infer_instance

instance : Repr ResultRow := by
  unfold ResultRow
  infer_instance

/-- Result dict of `transform_data`: the transformed rows and their
count. -/
structure TransformResult where
  data : List ResultRow
  row_count : Nat
  deriving Repr, DecidableEq

/-- Payload of `transform_data`: execution id, the query text
(`payload.get("query", "")`), and the upstream activity's result dict. -/
structure TransformPayload where
  execution_id : Nat
  query : String
  source_data : FetchResult
  deriving Repr, DecidableEq

/-- Environment of one `transform_data` run: the execution→workflow→owner
lookup (`none` when the execution or workflow row is missing; the inner
option is the owner's username), and the outcomes of the DuckDB/MinIO
calls, indexed per file for the loading loop. -/
structure TransformEnv where
  ownerLookup : Option (Nat × Option String)
  duckdbConnect : Except String Unit
  fileFetch : Nat → Except String Unit
  ddlExec : Nat → Except String Unit
  inlineLoad : Except String Unit
  queryRun : Except String (List ResultRow)
  t0 : Nat
  t1 : Nat

/-- The per-user DuckDB path (etl_activities.py 94). -/
def duckdbPathFor (owner_id : Option Nat) : String :=
  match owner_id with
  | some oid => "/data/user_" ++ toString oid ++ ".duckdb"
  | none => ":memory:"

/-- The temp path a downloaded file is staged at (mkstemp with the format
as suffix, made deterministic by the file's position). -/
def stagedTmpPath (i : Nat) (fmt : String) : String :=
  "/tmp/load_" ++ toString i ++ "." ++ fmt

/-- The file-loading loop of `transform_data` (etl_activities.py
107-129): per file, derive the table name (its default computation can
raise on a missing path), download from MinIO (can raise), and when the
format is one of csv/parquet/json execute the interpolated
`CREATE OR REPLACE TABLE` (can raise).  The first raise aborts the loop. -/
def loadFilesLoop (env : TransformEnv) (i : Nat) :
    List FileConfig → List String × Except String Unit
  | [] => ([], Except.ok ())
  | fc :: rest =>
      let fmt := match fc.format with | some f => f | none => "csv"
      match fileLoadSql fc (stagedTmpPath i fmt) with
      | Except.error e => ([], Except.error e)
      | Except.ok osql =>
          match env.fileFetch i with
          | Except.error e => ([], Except.error e)
          | Except.ok _ =>
              let fetchEv :=
                "minio: fget " ++ (match fc.path with | some p => p | none => "")
              match osql with
              | none =>
                  let rec' := loadFilesLoop env (i + 1) rest
                  (fetchEv :: rec'.1, rec'.2)
              | some ddl =>
                  match env.ddlExec i with
                  | Except.error e => ([fetchEv], Except.error e)
                  | Except.ok _ =>
                      let rec' := loadFilesLoop env (i + 1) rest
                      (fetchEv :: ("duckdb: " ++ ddl) :: rec'.1, rec'.2)

/-- Body of `transform_data`'s `try` block after the step row is inserted
(etl_activities.py 89-144): resolve the per-user database, connect, load
referenced files, optionally materialize inline API data, run the query
and collect rows and columns. -/
def transformBody (env : TransformEnv) (p : TransformPayload) :
    List String × Except String TransformResult :=
  let dbPath := duckdbPathFor (env.ownerLookup.map Prod.fst)
  match env.duckdbConnect with
  | Except.error e => ([], Except.error e)
  | Except.ok _ =>
      let connectEv := "duckdb.connect " ++ dbPath
      let files := p.source_data.files
      let loadRes :=
        if files.isEmpty then ([], Except.ok ())
        else
          match env.ownerLookup with
          | some (_, some _) => loadFilesLoop env 0 files
          | _ => ([], Except.ok ())
      match loadRes with
      | (evs, Except.error e) => (connectEv :: evs, Except.error e)
      | (evs, Except.ok _) =>
          let inlineRes :=
            if (p.source_data.data).isTruthy then
              match env.inlineLoad with
              | Except.error e => ([], Except.error e)
              | Except.ok _ =>
                  (["duckdb: CREATE OR REPLACE TABLE source_data (parameterized)"],
                   Except.ok ())
            else ([], Except.ok ())
          match inlineRes with
          | (evs2, Except.error e) => (connectEv :: evs ++ evs2, Except.error e)
          | (evs2, Except.ok _) =>
              match env.queryRun with
              | Except.error e => (connectEv :: evs ++ evs2, Except.error e)
              | Except.ok rows =>
                  (connectEv :: evs ++ evs2 ++ ["duckdb: " ++ p.query],
                   Except.ok ⟨rows, rows.length⟩)

/-- Embeds `transform_data(payload)` (etl_activities.py 70-153): step row 2,
`transform`, `output_data = json.dumps({"row_count": ...})`. -/
def transform_data (env : TransformEnv) (p : TransformPayload) :
    List ActEvent × Except String TransformResult :=
  runStepActivity 2 "transform" p.execution_id env.t0 env.t1
    (fun r => dumpsRowCount r.row_count) (transformBody env p)

/-- Result dict of `save_to_destination`. -/
structure SaveResult where
  saved : Bool
  row_count : Nat
  object : Option String
  bucket : Option String
  status_code : Option Nat
  message : Option String
  deriving Repr, DecidableEq

/-- Stand-in for `json.dumps(result)` on a save result (the exact JSON
text is irrelevant to the claims; only its presence matters). -/
def dumpsSaveResult (r : SaveResult) : String :=
  "\x7b\"saved\": " ++ (if r.saved then "true" else "false") ++
    ", \"row_count\": " ++ toString r.row_count ++ "\x7d"

/-- Payload of `save_to_destination`. -/
structure SavePayload where
  execution_id : Nat
  dest_type : Option String
  dest_config : Option String
  data : TransformResult
  deriving Repr, DecidableEq

/-- Environment of one `save_to_destination` run: the
execution→workflow→owner lookup (`none` when the execution or workflow row
is missing; the inner option is the owner's username, `none` when the
owner relation is missing), outcomes of the temp-file write, the MinIO
upload, the `json.loads` of `dest_config`, and the webhook POST (returning
an HTTP status), plus `int(time.time())` and the two clock readings. -/
structure SaveEnv where
  ownerLookup : Option (Nat × Option String)
  fileWrite : Except String Unit
  minioUpload : Except String Unit
  parseDestConfig : Except String (Option String)
  webhookPost : Except String Nat
  epoch : Nat
  t0 : Nat
  t1 : Nat

/-- The output filename built at etl_activities.py 190. -/
def saveFilename (workflow_id : Option Nat) (execution_id epoch : Nat) :
    String :=
  "workflow_" ++ (match workflow_id with
    | some w => toString w
    | none => "unknown") ++
    "_" ++ toString execution_id ++ "_" ++ toString epoch ++ ".csv"

/-- The `try` block of the `storage` branch (etl_activities.py 180-214):
resolve owner and bucket, write the rows to a temp CSV (can raise), and if
a bucket was resolved upload it (can raise); with no bucket the result is
`saved = False` / "Owner/bucket not resolved" without raising. -/
def storageAttempt (env : SaveEnv) (p : SavePayload) (result0 : SaveResult) :
    List String × Except String SaveResult :=
  let bucketOpt : Option String :=
    match env.ownerLookup with
    | some (_, some uname) => some ("user-" ++ uname)
    | _ => none
  let filename := saveFilename (env.ownerLookup.map Prod.fst) p.execution_id
    env.epoch
  match env.fileWrite with
  | Except.error e => ([], Except.error e)
  | Except.ok _ =>
      let writeEv := "tmpfile: write csv rows"
      match bucketOpt with
      | some b =>
          (match env.minioUpload with
           | Except.error e => ([writeEv], Except.error e)
           | Except.ok _ =>
              ([writeEv,
                "minio: fput " ++ b ++ "/transformed/" ++ filename],
               Except.ok
                { result0 with
                    object := some ("transformed/" ++ filename),
                    bucket := some b,
                    message := some "Saved to MinIO" }))
      | none =>
          ([writeEv],
           Except.ok
            { result0 with
                saved := false,
                message := some "Owner/bucket not resolved" })

/-- Body of `save_to_destination`'s `try` block after the step row is
inserted (etl_activities.py 176-228): dispatch on `dest_type`.  The
`storage` branch catches any exception of its attempt and converts it to a
non-raising `saved = False` result; the `webhook` branch propagates parse
and POST failures (and a missing url raises inside aiohttp). -/
def saveBody (env : SaveEnv) (p : SavePayload) :
    List String × Except String SaveResult :=
  let result0 : SaveResult :=
    ⟨true, p.data.row_count, none, none, none, none⟩
  match p.dest_type with
  | some "storage" =>
      (match storageAttempt env p result0 with
       | (evs, Except.ok r) => (evs, Except.ok r)
       | (evs, Except.error e) =>
          (evs, Except.ok
            { result0 with
                saved := false,
                message := some ("Storage save failed: " ++ e) }))
  | some "webhook" =>
      (let parsed :=
        if pyOr p.dest_config "\x7b\x7d" = "\x7b\x7d" then Except.ok none
        else env.parseDestConfig
       match parsed with
       | Except.error e => ([], Except.error e)
       | Except.ok none => ([], Except.error "InvalidURL: None")
       | Except.ok (some url) =>
          match env.webhookPost with
          | Except.error e => ([], Except.error e)
          | Except.ok code =>
              (["http: POST " ++ url],
               Except.ok
                { result0 with
                    status_code := some code,
                    message := some ("Posted to webhook: " ++ toString code) }))
  | some "ftp" =>
      ([], Except.ok { result0 with message := some "FTP not yet implemented" })
  | _ => ([], Except.ok result0)

/-- Embeds `save_to_destination(payload)` (etl_activities.py 156-243): step row
3, `save_destination`, `output_data = json.dumps(result)`. -/
def save_to_destination (env : SaveEnv) (p : SavePayload) :
    List ActEvent × Except String SaveResult :=
  runStepActivity 3 "save_destination" p.execution_id env.t0 env.t1
    dumpsSaveResult (saveBody env p)

/-! ## `ETLWorkflow.run` (temporal_workflow.py) -/

/-- The retry policy record built at temporal_workflow.py 17-22
(`RetryPolicy(maximum_attempts=3, initial_interval=1s,
maximum_interval=10s, backoff_coefficient=2.0)`); intervals in seconds,
the coefficient is the exact integer 2. -/
structure RetryPolicySpec where
  maximum_attempts : Nat
  initial_interval_secs : Nat
  maximum_interval_secs : Nat
  backoff_coefficient : Nat
  deriving Repr, DecidableEq

/-- One `workflow.execute_activity(...)` call as issued by
`ETLWorkflow.run`: the activity's string identifier, its
`start_to_close_timeout` in minutes, and the retry policy attached to this
call.  The JSON payload handed to the activity is not modelled here; the
activities themselves are embedded separately. -/
structure ActivityInvocation where
  activity : String
  start_to_close_timeout_mins : Nat
  retry_policy : RetryPolicySpec
  deriving Repr, DecidableEq

/-- One entry of the `steps` list in the multi-step branch: its `type`
and the config keys each branch reads. -/
structure PipeStep where
  step_type : Option String
  deriving Repr, DecidableEq

/-- Embeds `ETLWorkflow.run(workflow_id, execution_id, config)` reduced to the
sequence of activity invocations it issues.  `steps = some ss` is the
multi-step branch (a truthy `config["steps"]`, after the
JSON-string-or-list normalization at temporal_workflow.py 27-31, an
unparseable string normalizing to the empty list); `steps = none` is the
falsy case, the legacy three-activity branch. -/
def ETLWorkflowRun (steps : Option (List PipeStep)) : List ActivityInvocation :=
  let retry_policy : RetryPolicySpec := ⟨3, 1, 10, 2⟩
  match steps with
  | some ss =>
      ss.flatMap fun s =>
        if s.step_type = some "source" then
          [⟨"fetch_source_data", 10, retry_policy⟩]
        else if s.step_type = some "transform" then
          [⟨"transform_data", 30, retry_policy⟩]
        else if s.step_type = some "destination" then
          [⟨"save_to_destination", 10, retry_policy⟩]
        else []
  | none =>
      [⟨"fetch_source_data", 10, retry_policy⟩,
       ⟨"transform_data", 30, retry_policy⟩,
       ⟨"save_to_destination", 10, retry_policy⟩]

/-- The terminal-bookkeeping contract of one step activity, shared by the
three activities of `etl_activities.py`: the write trace is exactly one
`running` step-row insert with the given number/name/execution id, then
only external effects (no further step-table writes), then one final
step-row update; the final row is `success` with serialized `output_data`
when the activity returns normally and `failed` carrying the raised
message when it raises; and the activity raises iff the final row is
`failed`. -/
def stepContract {α : Type} (out : List ActEvent × Except String α)
    (num : Nat) (name : String) (eid t0 t1 : Nat) (okOutput : α → String) :
    Prop :=
  ∃ effs fin,
    out.1 = ActEvent.dbStepInsert
        ⟨eid, num, name, "running", none, none, some t0, none⟩ ::
        (List.map ActEvent.effect effs ++ [ActEvent.dbStepUpdate fin]) ∧
    fin.execution_id = eid ∧ fin.step_number = num ∧ fin.step_name = name ∧
    fin.started_at = some t0 ∧ fin.completed_at = some t1 ∧
    (match out.2 with
     | Except.ok r =>
        fin.status = "success" ∧ fin.output_data = some (okOutput r) ∧
          fin.error_message = none
     | Except.error e =>
        fin.status = "failed" ∧ fin.error_message = some e) ∧
    ((∃ e, out.2 = Except.error e) ↔ fin.status = "failed")

/-! # Theorems -/

/-- Both branches of the per-execution `try/except/finally` produce the
same row update: the `finally` marking runs whether or not the cancel RPC
raised. -/
theorem cancelLoopBody_eq (connectOk : Bool) (rpcFails : Nat → Bool)
    (now : Nat) (ex : Execution) :
    cancelLoopBody connectOk rpcFails now ex =
      { ex with
          status := "failed",
          error_message := some "cancelled by user",
          completed_at := some now } := by
  unfold cancelLoopBody
  cases tryCancelRpc connectOk ex.temporal_workflow_id (rpcFails ex.id) <;> rfl

/-- C1: for every call to `cancel_running_executions(workflowID, ownerID)`,
every execution row of that workflow whose status is "running" at the
start of the call ends the call with status "failed", error message
"cancelled by user" and a non-null `completed_at` — for every outcome of
the durable-backend connection (`connectOk`) and of each per-run cancel
RPC (`rpcFails`), including when they raise. -/
theorem c1_cancel_marks_all_running_failed (connectOk : Bool)
    (rpcFails : Nat → Bool) (now wid : Nat) (db : List Execution)
    (ex : Execution) (hmem : ex ∈ db) (hrun : ex.status = "running")
    (hwid : ex.workflow_id = wid) :
    { ex with
        status := "failed",
        error_message := some "cancelled by user",
        completed_at := some now } ∈
      cancel_running_executions connectOk rpcFails now wid db := by
  unfold cancel_running_executions
  have hpred : (ex.workflow_id == wid && ex.status == "running") = true := by
    simp [hrun, hwid]
  have hfil : ex ∈ db.filter fun e =>
      e.workflow_id == wid && e.status == "running" :=
    List.mem_filter.2 ⟨hmem, hpred⟩
  have hne : ¬((db.filter fun e =>
      e.workflow_id == wid && e.status == "running").isEmpty = true) := by
    intro h
    rw [List.isEmpty_iff] at h
    rw [h] at hfil
    exact absurd hfil (List.not_mem_nil _)
  rw [if_neg hne]
  refine List.mem_map.2 ⟨ex, hmem, ?_⟩
  simp only [hpred, if_true]
  exact cancelLoopBody_eq connectOk rpcFails now ex

/-- Witness for C1 at a concrete table: one running execution of
workflow 5 with a recorded durable-run id, failing connection and failing
RPC. -/
theorem c1_witness :
    (⟨1, 5, "failed", some "cancelled by user", some 10, some 99,
        some "tw-1"⟩ : Execution) ∈
      cancel_running_executions false (fun _ => true) 99 5
        [⟨1, 5, "running", none, some 10, none, some "tw-1"⟩] :=
  c1_cancel_marks_all_running_failed false (fun _ => true) 99 5
    [⟨1, 5, "running", none, some 10, none, some "tw-1"⟩]
    ⟨1, 5, "running", none, some 10, none, some "tw-1"⟩
    (List.mem_singleton.2 rfl) rfl rfl

/-- C3 counterexample: with the backend connected at init, a failed
per-execution start of the durable run routes that very execution to the
synchronous fallback path (scheduler.py 264-266), contradicting the claim
that a per-execution failure never routes to the fallback. -/
theorem c3_counterexample :
    executionPath (initScheduler true) (Except.error "start_workflow failed") =
        ExecPath.fallback ∧
      ExecPath.fallback ≠ ExecPath.durable := by
  exact ⟨rfl, by decide⟩

/-- C3 amended: the init-time latch decides the default path — init
failure routes every execution to the fallback, and with the latch set an
execution runs durably exactly when its per-execution connect/start
succeeds; when that start fails the execution falls back to the
synchronous path. -/
theorem c3_amended_routing (connectOk : Bool) (start : Except String Unit) :
    (connectOk = false →
       executionPath (initScheduler connectOk) start = ExecPath.fallback) ∧
    (connectOk = true → start = Except.ok () →
       executionPath (initScheduler connectOk) start = ExecPath.durable) ∧
    (connectOk = true → ∀ e, start = Except.error e →
       executionPath (initScheduler connectOk) start = ExecPath.fallback) := by
  refine ⟨?_, ?_, ?_⟩
  · intro h; subst h; rfl
  · intro h hs; subst h; subst hs; rfl
  · intro h e hs; subst h; subst hs; rfl

/-- Witness for C3's amended theorem: degraded init routes to fallback. -/
theorem c3_amended_witness :
    executionPath (initScheduler false) (Except.ok ()) = ExecPath.fallback :=
  (c3_amended_routing false (Except.ok ())).1 rfl

/-- C2 counterexample: a workflow whose literal query is non-empty
("SELECT 1 AS literal_q") and whose linked template holds a non-empty
query ("SELECT 2 AS template_q") executes the template's query, not the
literal one, in both the durable-path config and the synchronous fallback
(the first statement the fallback runs is the COPY of the template's
query). -/
theorem c2_counterexample :
    resolveQueryToRun (some "SELECT 1 AS literal_q") (some 7)
        [⟨7, some "SELECT 2 AS template_q"⟩] false = "SELECT 2 AS template_q" ∧
    (temporalConfigFor
        ⟨1, 2, some "alice", "active", "0 0 * * *", some "SELECT 1 AS literal_q",
          some 7, some "none", none, some "storage", none, none⟩
        [⟨7, some "SELECT 2 AS template_q"⟩] false).query =
      "SELECT 2 AS template_q" ∧
    (syncBody ⟨Except.ok (), Except.ok (), Except.ok (), Except.ok none,
        Except.ok ()⟩
        ⟨1, 2, some "alice", "active", "0 0 * * *", some "SELECT 1 AS literal_q",
          some 7, some "none", none, some "storage", none, none⟩
        [⟨7, some "SELECT 2 AS template_q"⟩] false).1.head? =
      some "duckdb: COPY (SELECT 2 AS template_q) TO tmp csv" ∧
    "SELECT 2 AS template_q" ≠ "SELECT 1 AS literal_q" := by
  refine ⟨rfl, rfl, rfl, ?_⟩
  decide

/-- C2 amended: the template's query takes precedence — when the workflow
links a template that is found and holds a non-empty query, that query is
what both paths execute (the literal query is ignored even when
non-empty); the literal query (defaulted to "") is used when no template
is linked.  The third part ties the resolution to the fallback executor:
the first statement it runs is the COPY of the resolved query. -/
theorem c2_amended_template_overrides_literal (wf : Workflow)
    (tpls : List QueryTemplate) (env : SyncEnv) :
    (∀ tid tpl tq, wf.template_id = some tid →
       (tpls.find? fun t => t.id == tid) = some tpl → tpl.query = some tq →
       tq ≠ "" →
       (temporalConfigFor wf tpls false).query = tq ∧
       resolveQueryToRun wf.query wf.template_id tpls false = tq) ∧
    (wf.template_id = none →
       (temporalConfigFor wf tpls false).query = wf.query.getD "" ∧
       resolveQueryToRun wf.query wf.template_id tpls false = wf.query.getD "") ∧
    (∀ q, env.duckdbConnect = Except.ok () →
       resolveQueryToRun wf.query wf.template_id tpls false = q → q ≠ "" →
       (syncBody env wf tpls false).1.head? =
         some ("duckdb: COPY (" ++ q ++ ") TO tmp csv")) := by
  refine ⟨?_, ?_, ?_⟩
  · intro tid tpl tq htid hfind htq hne
    have hres : resolveQueryToRun wf.query wf.template_id tpls false = tq := by
      unfold resolveQueryToRun
      rw [htid]
      simp [hfind, htq, hne]
    exact ⟨hres, hres⟩
  · intro hnone
    have hres : resolveQueryToRun wf.query wf.template_id tpls false =
        wf.query.getD "" := by
      unfold resolveQueryToRun
      rw [hnone]
      cases wf.query <;> rfl
    exact ⟨hres, hres⟩
  · intro q hconn hres hne
    unfold syncBody
    simp only [hconn, hres, if_neg hne]
    rcases hcopy : env.duckdbCopy with e | u <;> simp only [hcopy]
    · rfl
    · by_cases hs : wf.destination_type = some "storage"
      · simp only [if_pos hs]
        rcases hmu : env.minioUpload with e2 | u2 <;> simp only [hmu] <;> rfl
      · simp only [if_neg hs]
        by_cases hw : wf.destination_type = some "webhook"
        · simp only [if_pos hw]
          by_cases hc : pyOr wf.destination_config "" = ""
          · simp only [if_pos hc]
            rfl
          · simp only [if_neg hc]
            rcases hp : env.parseDestConfig with e3 | u3
            · simp only [hp]
              rfl
            · rcases u3 with _ | url
              · simp only [hp]
                rfl
              · rcases hwp : env.webhookPost with e4 | v <;> simp [hp, hwp]
        · simp only [if_neg hw]
          rfl

/-- Witness for C2's amended theorem at the counterexample's inputs. -/
theorem c2_amended_witness :
    (temporalConfigFor
        ⟨1, 2, some "alice", "active", "0 0 * * *", some "SELECT 1 AS literal_q",
          some 7, some "none", none, some "storage", none, none⟩
        [⟨7, some "SELECT 2 AS template_q"⟩] false).query =
        "SELECT 2 AS template_q" ∧
      resolveQueryToRun (some "SELECT 1 AS literal_q") (some 7)
        [⟨7, some "SELECT 2 AS template_q"⟩] false = "SELECT 2 AS template_q" :=
  (c2_amended_template_overrides_literal
      ⟨1, 2, some "alice", "active", "0 0 * * *", some "SELECT 1 AS literal_q",
        some 7, some "none", none, some "storage", none, none⟩
      [⟨7, some "SELECT 2 AS template_q"⟩]
      ⟨Except.ok (), Except.ok (), Except.ok (), Except.ok none,
        Except.ok ()⟩).1
    7 ⟨7, some "SELECT 2 AS template_q"⟩ "SELECT 2 AS template_q" rfl rfl rfl
    (by decide)

/-- C4 counterexample: with the durable-backend client unavailable,
`schedule_workflow` returns with NO timer registered for the workflow —
and it has additionally cancelled the previously registered timer first —
contradicting "the call always ends with a background timer loop keyed by
workflowID registered in the registry". -/
theorem c4_counterexample :
    (schedule_workflow ⟨[(5, 0)], 1, []⟩ none true 5).1.running_schedules = [] ∧
    (schedule_workflow ⟨[(5, 0)], 1, []⟩ none true 5).1.cancelled_tasks = [0] :=
  ⟨rfl, rfl⟩

/-- C4 amended: any existing schedule for the workflow is cancelled first
(replace, not additive), the registry outcome is independent of the
namespace-ensure result (its failure is non-fatal), and the call ends with
exactly one registered timer for the workflow when the durable-backend
client is available — but with NO timer at all when the client is
unavailable (the early return at scheduler.py 71-73). -/
theorem c4_amended_schedule_workflow (st : SchedulerRegistry)
    (client : Option Unit) (ensureOk : Bool) (wid : Nat) :
    (∀ t, (st.running_schedules.find? fun p => p.1 == wid) = some (wid, t) →
       t ∈ (schedule_workflow st client ensureOk wid).1.cancelled_tasks) ∧
    (schedule_workflow st client true wid).1 =
      (schedule_workflow st client ensureOk wid).1 ∧
    (client = none → ∀ t,
       (wid, t) ∉ (schedule_workflow st client ensureOk wid).1.running_schedules) ∧
    (∀ u, client = some u → ∃ t,
       ((schedule_workflow st client ensureOk wid).1.running_schedules.filter
         fun p => p.1 == wid) = [(wid, t)]) := by
  have hsub : ∀ t, (st.running_schedules.find? fun p => p.1 == wid) =
      some (wid, t) →
      (schedule_workflow_pre st wid).cancelled_tasks = t :: st.cancelled_tasks := by
    intro t hf
    unfold schedule_workflow_pre
    rw [if_pos (by rw [hf]; rfl)]
    unfold cancel_schedule
    rw [hf]
  have hnotin : ∀ t, (wid, t) ∉ (schedule_workflow_pre st wid).running_schedules := by
    intro t hmem
    unfold schedule_workflow_pre at hmem
    by_cases hf : ((st.running_schedules.find? fun p => p.1 == wid)).isSome
    · rw [if_pos hf] at hmem
      obtain ⟨pr, hpr⟩ := Option.isSome_iff_exists.1 hf
      unfold cancel_schedule at hmem
      rw [hpr] at hmem
      have := (List.mem_filter.1 hmem).2
      simp at this
    · rw [if_neg hf] at hmem
      rw [Option.not_isSome_iff_eq_none] at hf
      have := List.find?_eq_none.1 hf _ hmem
      simp at this
  refine ⟨?_, ?_, ?_, ?_⟩
  · intro t hf
    cases client
    · show t ∈ (schedule_workflow_pre st wid).cancelled_tasks
      rw [hsub t hf]
      exact List.mem_cons_self _ _
    · show t ∈ (schedule_workflow_pre st wid).cancelled_tasks
      rw [hsub t hf]
      exact List.mem_cons_self _ _
  · cases client <;> rfl
  · intro hc t hmem
    subst hc
    exact hnotin t hmem
  · intro u hc
    subst hc
    refine ⟨(schedule_workflow_pre st wid).next_task, ?_⟩
    show List.filter _ ((wid, (schedule_workflow_pre st wid).next_task) ::
      (schedule_workflow_pre st wid).running_schedules) = _
    rw [List.filter_cons_of_pos (by simp)]
    congr 1
    rw [List.filter_eq_nil_iff]
    intro p hp hkey
    have hk : p.1 = wid := by simpa using hkey
    have hpe : (wid, p.2) = p := by
      rw [← hk]
    exact hnotin p.2 (hpe ▸ hp)

/-- Witness for C4's amended theorem: a registry holding a timer (task 0)
for workflow 5; scheduling workflow 5 again with the client available and
the namespace-ensure failing cancels task 0 and registers exactly one new
timer. -/
theorem c4_amended_witness :
    (0 ∈ (schedule_workflow ⟨[(5, 0)], 1, []⟩ (some ()) false 5).1.cancelled_tasks) ∧
    ∃ t, ((schedule_workflow ⟨[(5, 0)], 1, []⟩ (some ()) false 5).1.running_schedules.filter
      fun p => p.1 == 5) = [(5, t)] :=
  ⟨(c4_amended_schedule_workflow ⟨[(5, 0)], 1, []⟩ (some ()) false 5).1 0 rfl,
   (c4_amended_schedule_workflow ⟨[(5, 0)], 1, []⟩ (some ()) false 5).2.2.2 () rfl⟩

/-- C5 counterexample: a file named `1bad-name;drop table x.csv` yields
the derived table name `1bad-name;drop table x` — which starts with a
digit and contains characters outside alphanumerics/underscore — and that
name reaches the generated `CREATE OR REPLACE TABLE` DDL verbatim; with
all effects succeeding, the loading loop executes exactly that statement. -/
theorem c5_counterexample :
    derivedTableNameE ⟨some "uploads/1bad-name;drop table x.csv", none, none⟩ =
        Except.ok "1bad-name;drop table x" ∧
    isSanitizedIdentifier "1bad-name;drop table x" = false ∧
    fileLoadSql ⟨some "uploads/1bad-name;drop table x.csv", none, none⟩
        "/tmp/load_0.csv" =
      Except.ok (some ("CREATE OR REPLACE TABLE 1bad-name;drop table x " ++
        "AS SELECT * FROM read_csv_auto('/tmp/load_0.csv')")) ∧
    (loadFilesLoop
        ⟨some (1, some "alice"), Except.ok (), fun _ => Except.ok (),
          fun _ => Except.ok (), Except.ok (), Except.ok [], 0, 1⟩ 0
        [⟨some "uploads/1bad-name;drop table x.csv", none, none⟩]).1 =
      ["minio: fget uploads/1bad-name;drop table x.csv",
       "duckdb: CREATE OR REPLACE TABLE 1bad-name;drop table x " ++
         "AS SELECT * FROM read_csv_auto('/tmp/load_0.csv')"] :=
  ⟨rfl, rfl, rfl, rfl⟩

/-- C5 amended: no sanitization is applied — whatever table name the
derivation produces is interpolated verbatim (as a character-level
substring) into the SQL statement the loop executes for that file, and the
loop does execute it when the per-file effects succeed; names violating
the alphanumeric/underscore/no-leading-digit rule reach the generated SQL
unchanged (see the counterexample). -/
theorem c5_amended_no_sanitization (fc : FileConfig) (env : TransformEnv)
    (rest : List FileConfig) (i : Nat) (tmpPath tn sql : String)
    (h1 : derivedTableNameE fc = Except.ok tn)
    (h2 : fileLoadSql fc tmpPath = Except.ok (some sql)) :
    tn.data <:+: sql.data ∧
    (fileLoadSql fc (stagedTmpPath i
        (match fc.format with | some f => f | none => "csv")) =
          Except.ok (some sql) →
     env.fileFetch i = Except.ok () →
     env.ddlExec i = Except.ok () →
     ("duckdb: " ++ sql) ∈ (loadFilesLoop env i (fc :: rest)).1) := by
  constructor
  · unfold fileLoadSql at h2
    rw [h1] at h2
    rcases hr : readFnFor (match fc.format with | some f => f | none => "csv")
      with _ | fn
    · rw [hr] at h2
      simp at h2
    · rw [hr] at h2
      have hsql : sql = createTableDdl fn tn tmpPath := by
        have h3 := h2
        simp at h3
        exact h3.symm
      subst hsql
      refine ⟨("CREATE OR REPLACE TABLE ").data,
        (" AS SELECT * FROM " ++ fn ++ "('" ++ tmpPath ++ "')").data, ?_⟩
      show _ ++ tn.data ++ _ = _
      unfold createTableDdl
      simp [String.data_append, List.append_assoc]
  · intro hsql hfetch hddl
    unfold loadFilesLoop
    simp only [hsql, hfetch, hddl]
    simp

/-- Witness for C5's amended theorem at the counterexample inputs: the
unsanitized derived name is a verbatim substring of the executed SQL, and
the loop run on that file executes it. -/
theorem c5_amended_witness :
    ("1bad-name;drop table x").data <:+:
      ("CREATE OR REPLACE TABLE 1bad-name;drop table x " ++
        "AS SELECT * FROM read_csv_auto('/tmp/load_0.csv')").data ∧
    ("duckdb: " ++ ("CREATE OR REPLACE TABLE 1bad-name;drop table x " ++
        "AS SELECT * FROM read_csv_auto('/tmp/load_0.csv')")) ∈
      (loadFilesLoop
        ⟨some (1, some "alice"), Except.ok (), fun _ => Except.ok (),
          fun _ => Except.ok (), Except.ok (), Except.ok [], 0, 1⟩ 0
        [⟨some "uploads/1bad-name;drop table x.csv", none, none⟩]).1 :=
  ⟨(c5_amended_no_sanitization
      ⟨some "uploads/1bad-name;drop table x.csv", none, none⟩
      ⟨some (1, some "alice"), Except.ok (), fun _ => Except.ok (),
        fun _ => Except.ok (), Except.ok (), Except.ok [], 0, 1⟩
      [] 0 "/tmp/load_0.csv" "1bad-name;drop table x"
      ("CREATE OR REPLACE TABLE 1bad-name;drop table x " ++
        "AS SELECT * FROM read_csv_auto('/tmp/load_0.csv')") rfl rfl).1,
   (c5_amended_no_sanitization
      ⟨some "uploads/1bad-name;drop table x.csv", none, none⟩
      ⟨some (1, some "alice"), Except.ok (), fun _ => Except.ok (),
        fun _ => Except.ok (), Except.ok (), Except.ok [], 0, 1⟩
      [] 0 "/tmp/load_0.csv" "1bad-name;drop table x"
      ("CREATE OR REPLACE TABLE 1bad-name;drop table x " ++
        "AS SELECT * FROM read_csv_auto('/tmp/load_0.csv')") rfl rfl).2
     rfl rfl rfl⟩

/-- C6: every step-activity invocation issued by `ETLWorkflow.run` — in
the multi-step branch for any steps list, and in the legacy branch —
carries the retry policy (max 3 attempts, initial backoff 1 s,
coefficient 2, interval capped at 10 s), attached per invocation, and a
start-to-close timeout of 10 minutes for `fetch_source_data` and
`save_to_destination` and 30 minutes for `transform_data`. -/
theorem c6_per_step_retry_policy_and_timeouts
    (steps : Option (List PipeStep)) (inv : ActivityInvocation)
    (h : inv ∈ ETLWorkflowRun steps) :
    inv.retry_policy = ⟨3, 1, 10, 2⟩ ∧
    ((inv.activity = "fetch_source_data" ∧ inv.start_to_close_timeout_mins = 10) ∨
     (inv.activity = "transform_data" ∧ inv.start_to_close_timeout_mins = 30) ∨
     (inv.activity = "save_to_destination" ∧
       inv.start_to_close_timeout_mins = 10)) := by
  cases steps with
  | none =>
      unfold ETLWorkflowRun at h
      simp only [List.mem_cons, List.not_mem_nil, or_false] at h
      rcases h with h | h | h
      · subst h; exact ⟨rfl, Or.inl ⟨rfl, rfl⟩⟩
      · subst h; exact ⟨rfl, Or.inr (Or.inl ⟨rfl, rfl⟩)⟩
      · subst h; exact ⟨rfl, Or.inr (Or.inr ⟨rfl, rfl⟩)⟩
  | some ss =>
      unfold ETLWorkflowRun at h
      obtain ⟨s, _, hmem⟩ := List.mem_flatMap.1 h
      by_cases h1 : s.step_type = some "source"
      · rw [if_pos h1] at hmem
        rcases List.mem_singleton.1 hmem with h2
        subst h2; exact ⟨rfl, Or.inl ⟨rfl, rfl⟩⟩
      · rw [if_neg h1] at hmem
        by_cases h2 : s.step_type = some "transform"
        · rw [if_pos h2] at hmem
          rcases List.mem_singleton.1 hmem with h3
          subst h3; exact ⟨rfl, Or.inr (Or.inl ⟨rfl, rfl⟩)⟩
        · rw [if_neg h2] at hmem
          by_cases h3 : s.step_type = some "destination"
          · rw [if_pos h3] at hmem
            rcases List.mem_singleton.1 hmem with h4
            subst h4; exact ⟨rfl, Or.inr (Or.inr ⟨rfl, rfl⟩)⟩
          · rw [if_neg h3] at hmem
            exact absurd hmem (List.not_mem_nil _)

/-- Witness for C6: the transform invocation of a two-step pipeline
carries the shared retry policy and a 30-minute timeout. -/
theorem c6_witness :
    (⟨"transform_data", 30, ⟨3, 1, 10, 2⟩⟩ : ActivityInvocation).retry_policy =
        ⟨3, 1, 10, 2⟩ ∧
      (((⟨"transform_data", 30, ⟨3, 1, 10, 2⟩⟩ : ActivityInvocation).activity =
            "fetch_source_data" ∧
          (⟨"transform_data", 30, ⟨3, 1, 10, 2⟩⟩ :
              ActivityInvocation).start_to_close_timeout_mins = 10) ∨
        ((⟨"transform_data", 30, ⟨3, 1, 10, 2⟩⟩ : ActivityInvocation).activity =
            "transform_data" ∧
          (⟨"transform_data", 30, ⟨3, 1, 10, 2⟩⟩ :
              ActivityInvocation).start_to_close_timeout_mins = 30) ∨
        ((⟨"transform_data", 30, ⟨3, 1, 10, 2⟩⟩ : ActivityInvocation).activity =
            "save_to_destination" ∧
          (⟨"transform_data", 30, ⟨3, 1, 10, 2⟩⟩ :
              ActivityInvocation).start_to_close_timeout_mins = 10)) :=
  c6_per_step_retry_policy_and_timeouts
    (some [⟨some "source"⟩, ⟨some "transform"⟩]) ⟨"transform_data", 30, ⟨3, 1, 10, 2⟩⟩
    (by simp [ETLWorkflowRun])

/-- The shared wrapper satisfies the step-record contract for any body
outcome. -/
theorem runStepActivity_contract {α : Type} (num : Nat) (name : String)
    (eid t0 t1 : Nat) (okOutput : α → String)
    (body : List String × Except String α) :
    stepContract (runStepActivity num name eid t0 t1 okOutput body)
      num name eid t0 t1 okOutput := by
  rcases body with ⟨evs, r⟩
  cases r with
  | ok v =>
      refine ⟨evs,
        { execution_id := eid, step_number := num, step_name := name,
          status := "success", error_message := none,
          output_data := some (okOutput v), started_at := some t0,
          completed_at := some t1 },
        rfl, rfl, rfl, rfl, rfl, rfl, ⟨rfl, rfl, rfl⟩, ?_⟩
      constructor
      · rintro ⟨e, he⟩
        exact Except.noConfusion he
      · intro hf
        have h2 : "success" = "failed" := hf
        exact absurd h2 (by decide)
  | error e =>
      refine ⟨evs,
        { execution_id := eid, step_number := num, step_name := name,
          status := "failed", error_message := some e,
          output_data := none, started_at := some t0,
          completed_at := some t1 },
        rfl, rfl, rfl, rfl, rfl, rfl, ⟨rfl, rfl⟩, ?_⟩
      exact ⟨fun _ => rfl, fun _ => ⟨e, rfl⟩⟩

set_option maxHeartbeats 1600000 in
/-- C7: each of the three step activities inserts its ExecutionStep row
(with its step number and name) as `running` before any work, performs
only external effects in between (no further step-table writes), and
flips the row to a terminal status before returning or raising — `success`
with serialized output data on a normal return, `failed` with the raised
error message on a raise; and the activity raises iff its step row ends
`failed`. -/
theorem c7_step_records_lifecycle :
    (∀ (env : FetchEnv) (p : FetchPayload),
       stepContract (fetch_source_data env p) 1 "fetch_source"
         p.execution_id env.t0 env.t1 (fun r => dumpsRowCount r.row_count)) ∧
    (∀ (env : TransformEnv) (p : TransformPayload),
       stepContract (transform_data env p) 2 "transform"
         p.execution_id env.t0 env.t1 (fun r => dumpsRowCount r.row_count)) ∧
    (∀ (env : SaveEnv) (p : SavePayload),
       stepContract (save_to_destination env p) 3 "save_destination"
         p.execution_id env.t0 env.t1 dumpsSaveResult) := by
  refine ⟨fun env p => ?_, fun env p => ?_, fun env p => ?_⟩
  · unfold fetch_source_data
    exact runStepActivity_contract 1 "fetch_source" p.execution_id
      env.t0 env.t1 (fun r => dumpsRowCount r.row_count) (fetchBody env p)
  · unfold transform_data
    exact runStepActivity_contract 2 "transform" p.execution_id
      env.t0 env.t1 (fun r => dumpsRowCount r.row_count) (transformBody env p)
  · unfold save_to_destination
    exact runStepActivity_contract 3 "save_destination" p.execution_id
      env.t0 env.t1 dumpsSaveResult (saveBody env p)

/-- Witness for C7: the fetch activity on a `source_type = "none"` payload
satisfies the step-record contract at concrete inputs. -/
theorem c7_witness :
    stepContract
      (fetch_source_data
        ⟨Except.ok ⟨[], none⟩, Except.ok (JsonValue.arr 0), 3, 4⟩
        ⟨11, some "none", none⟩)
      1 "fetch_source" 11 3 4 (fun r => dumpsRowCount r.row_count) :=
  c7_step_records_lifecycle.1
    ⟨Except.ok ⟨[], none⟩, Except.ok (JsonValue.arr 0), 3, 4⟩
    ⟨11, some "none", none⟩

/-- C8: the synchronous fallback executor writes zero ExecutionStep rows —
its whole write trace is external effects plus the final Execution-row
update (and, on success only, the workflow's last-run timestamp); the
execution ends `success` when the inline body completes and `failed` with
the triggering error message and a set `completed_at` when any step of the
body raises. -/
theorem c8_sync_fallback_frame (env : SyncEnv) (wf : Workflow)
    (templates : List QueryTemplate) (lookupFails : Bool) (ex : Execution)
    (now : Nat) (effs : List String) (res : Except String Unit)
    (hsb : syncBody env wf templates lookupFails = (effs, res)) :
    (∀ w ∈ (execute_synchronously env wf templates lookupFails ex now).1,
       touchesStepTable w = false) ∧
    (match res with
     | Except.ok _ =>
        (execute_synchronously env wf templates lookupFails ex now).2 =
          { ex with status := "success", completed_at := some now } ∧
        (execute_synchronously env wf templates lookupFails ex now).1 =
          effs.map ActEvent.effect ++
            [ActEvent.dbExecUpdate
              { ex with status := "success", completed_at := some now },
             ActEvent.dbWorkflowLastRun wf.id now]
     | Except.error e =>
        (execute_synchronously env wf templates lookupFails ex now).2 =
          { ex with
              status := "failed", error_message := some e,
              completed_at := some now } ∧
        (execute_synchronously env wf templates lookupFails ex now).1 =
          effs.map ActEvent.effect ++
            [ActEvent.dbExecUpdate
              { ex with
                  status := "failed", error_message := some e,
                  completed_at := some now }]) := by
  cases res with
  | ok u =>
      have hout : execute_synchronously env wf templates lookupFails ex now =
          (effs.map ActEvent.effect ++
            [ActEvent.dbExecUpdate
              { ex with status := "success", completed_at := some now },
             ActEvent.dbWorkflowLastRun wf.id now],
           { ex with status := "success", completed_at := some now }) := by
        unfold execute_synchronously
        rw [hsb]
      constructor
      · intro w hw
        rw [hout] at hw
        simp only [List.mem_append, List.mem_map, List.mem_cons,
          List.not_mem_nil, or_false] at hw
        rcases hw with ⟨d, _, hd⟩ | hw | hw
        · rw [← hd]; rfl
        · rw [hw]; rfl
        · rw [hw]; rfl
      · exact ⟨by rw [hout], by rw [hout]⟩
  | error e =>
      have hout : execute_synchronously env wf templates lookupFails ex now =
          (effs.map ActEvent.effect ++
            [ActEvent.dbExecUpdate
              { ex with
                  status := "failed", error_message := some e,
                  completed_at := some now }],
           { ex with
               status := "failed", error_message := some e,
               completed_at := some now }) := by
        unfold execute_synchronously
        rw [hsb]
      constructor
      · intro w hw
        rw [hout] at hw
        simp only [List.mem_append, List.mem_map, List.mem_cons,
          List.not_mem_nil, or_false] at hw
        rcases hw with ⟨d, _, hd⟩ | hw
        · rw [← hd]; rfl
        · rw [hw]; rfl
      · exact ⟨by rw [hout], by rw [hout]⟩

/-- Witness for C8 at concrete inputs: a workflow with a literal query and
storage destination, all effects succeeding. -/
theorem c8_witness :
    (∀ w ∈ (execute_synchronously
        ⟨Except.ok (), Except.ok (), Except.ok (), Except.ok none, Except.ok ()⟩
        ⟨1, 2, some "alice", "active", "0 0 * * *", some "SELECT 1", none,
          some "none", none, some "storage", none, none⟩
        [] false ⟨9, 1, "running", none, some 10, none, none⟩ 42).1,
       touchesStepTable w = false) ∧
    (execute_synchronously
        ⟨Except.ok (), Except.ok (), Except.ok (), Except.ok none, Except.ok ()⟩
        ⟨1, 2, some "alice", "active", "0 0 * * *", some "SELECT 1", none,
          some "none", none, some "storage", none, none⟩
        [] false ⟨9, 1, "running", none, some 10, none, none⟩ 42).2 =
      ⟨9, 1, "success", none, some 10, some 42, none⟩ :=
  ⟨(c8_sync_fallback_frame
      ⟨Except.ok (), Except.ok (), Except.ok (), Except.ok none, Except.ok ()⟩
      ⟨1, 2, some "alice", "active", "0 0 * * *", some "SELECT 1", none,
        some "none", none, some "storage", none, none⟩
      [] false ⟨9, 1, "running", none, some 10, none, none⟩ 42
      ["duckdb: COPY (SELECT 1) TO tmp csv", "minio: fput transformed csv"]
      (Except.ok ()) rfl).1,
   ((c8_sync_fallback_frame
      ⟨Except.ok (), Except.ok (), Except.ok (), Except.ok none, Except.ok ()⟩
      ⟨1, 2, some "alice", "active", "0 0 * * *", some "SELECT 1", none,
        some "none", none, some "storage", none, none⟩
      [] false ⟨9, 1, "running", none, some 10, none, none⟩ 42
      ["duckdb: COPY (SELECT 1) TO tmp csv", "minio: fput transformed csv"]
      (Except.ok ()) rfl).2).1⟩

/-- After a finished (`done`) task, no event at all is possible. -/
theorem runTask_done_no_events (c : Bool) (evs : List SchedEvent)
    (s' : TaskState) (h : runTask ⟨TaskPhase.done, c⟩ evs = some s') :
    evs = [] := by
  cases evs with
  | nil => rfl
  | cons e es =>
      exfalso
      have hstep : stepTask ⟨TaskPhase.done, c⟩ e = none := by
        cases e <;> rfl
      unfold runTask at h
      rw [hstep] at h
      exact Option.noConfusion h

/-- C9: (i) once `task.cancel()` has been requested, delivering the
`CancelledError` at any suspension point of the timer loop lands in `done`
(the loop's `except asyncio.CancelledError: break`), so the `await task`
inside `cancel_schedule` terminates; (ii) from a `done` task no transition
exists, so any event sequence the system can still run is empty — in
particular it contains no fire event, i.e. no execution is created after
`cancel_schedule` returns, even under a concurrent fire attempt. -/
theorem c9_no_fires_after_cancel :
    (∀ s : TaskState, s.cancelRequested = true →
       (s.phase = TaskPhase.sleeping ∨ s.phase = TaskPhase.firing ∨
         s.phase = TaskPhase.backingOff) →
       stepTask s SchedEvent.cancelDeliver = some ⟨TaskPhase.done, true⟩) ∧
    (∀ (c : Bool) (evs : List SchedEvent) (s' : TaskState),
       runTask ⟨TaskPhase.done, c⟩ evs = some s' →
       ∀ e ∈ evs, isFireEvent e = false) := by
  constructor
  · rintro ⟨ph, cr⟩ hcr hph
    subst hcr
    rcases hph with h | h | h <;> (subst h; rfl)
  · intro c evs s' h e he
    rw [runTask_done_no_events c evs s' h] at he
    exact absurd he (List.not_mem_nil e)

/-- Witness for C9: a cancel delivered mid-sleep finishes the task, and
from the finished task the empty event sequence (the only one possible)
contains no fire. -/
theorem c9_witness :
    stepTask ⟨TaskPhase.sleeping, true⟩ SchedEvent.cancelDeliver =
        some ⟨TaskPhase.done, true⟩ ∧
      (∀ e ∈ ([] : List SchedEvent), isFireEvent e = false) :=
  ⟨c9_no_fires_after_cancel.1 ⟨TaskPhase.sleeping, true⟩ rfl (Or.inl rfl),
   c9_no_fires_after_cancel.2 true [] ⟨TaskPhase.done, true⟩ rfl⟩

/-- C10: for a `storage` destination, when the write/upload attempt raises
(with message `e`), `save_to_destination` catches it inside the step: it
returns normally with `saved = false` and message `"Storage save failed: " ++ e`,
and its step row still ends `success` — a storage upload failure never
fails the step (and hence never fails the durable execution). -/
theorem c10_storage_failure_swallowed (env : SaveEnv) (p : SavePayload)
    (effs : List String) (e : String)
    (hdt : p.dest_type = some "storage")
    (hsa : storageAttempt env p ⟨true, p.data.row_count, none, none, none, none⟩ =
      (effs, Except.error e)) :
    (save_to_destination env p).2 =
      Except.ok ⟨false, p.data.row_count, none, none, none,
        some ("Storage save failed: " ++ e)⟩ ∧
    ∃ fin : StepRecord,
      (save_to_destination env p).1 =
        ActEvent.dbStepInsert
          ⟨p.execution_id, 3, "save_destination", "running", none, none,
            some env.t0, none⟩ ::
          (effs.map ActEvent.effect ++ [ActEvent.dbStepUpdate fin]) ∧
      fin.status = "success" := by
  have hsb : saveBody env p =
      (effs, Except.ok ⟨false, p.data.row_count, none, none, none,
        some ("Storage save failed: " ++ e)⟩) := by
    unfold saveBody
    rw [hdt]
    show (match storageAttempt env p
        ⟨true, p.data.row_count, none, none, none, none⟩ with
      | (evs, Except.ok r) => (evs, Except.ok r)
      | (evs, Except.error e2) =>
          (evs, Except.ok
            { saved := false, row_count := p.data.row_count, object := none,
              bucket := none, status_code := none,
              message := some ("Storage save failed: " ++ e2) })) = _
    rw [hsa]
  constructor
  · unfold save_to_destination runStepActivity
    rw [hsb]
  · refine ⟨⟨p.execution_id, 3, "save_destination", "success", none,
      some (dumpsSaveResult ⟨false, p.data.row_count, none, none, none,
        some ("Storage save failed: " ++ e)⟩),
      some env.t0, some env.t1⟩, ?_, rfl⟩
    unfold save_to_destination runStepActivity
    rw [hsb]
    rfl

/-- Witness for C10: owner resolved, CSV written, MinIO upload raising;
the activity returns `saved = false` with the failure message and its step
row ends `success`. -/
theorem c10_witness :
    (save_to_destination
        ⟨some (7, some "alice"), Except.ok (), Except.error "disk full",
          Except.ok none, Except.ok 200, 1000, 3, 4⟩
        ⟨21, some "storage", none, ⟨[], 0⟩⟩).2 =
      Except.ok ⟨false, 0, none, none, none,
        some ("Storage save failed: " ++ "disk full")⟩ ∧
    ∃ fin : StepRecord,
      (save_to_destination
          ⟨some (7, some "alice"), Except.ok (), Except.error "disk full",
            Except.ok none, Except.ok 200, 1000, 3, 4⟩
          ⟨21, some "storage", none, ⟨[], 0⟩⟩).1 =
        ActEvent.dbStepInsert
          ⟨21, 3, "save_destination", "running", none, none, some 3, none⟩ ::
          (["tmpfile: write csv rows"].map ActEvent.effect ++
            [ActEvent.dbStepUpdate fin]) ∧
      fin.status = "success" :=
  c10_storage_failure_swallowed
    ⟨some (7, some "alice"), Except.ok (), Except.error "disk full",
      Except.ok none, Except.ok 200, 1000, 3, 4⟩
    ⟨21, some "storage", none, ⟨[], 0⟩⟩
    ["tmpfile: write csv rows"] "disk full" rfl rfl

end DuckdbStudio
